import Mathlib

/-!
Verification development for the market-technicals analytics backend.

The Python backend (pandas/SQLAlchemy) is shallowly embedded: prices are
rationals (`ℚ`), a pandas NaN entry is `Option.none`, a pandas Series is a
`List`, and Python exceptions are the error side of `Except PyErr`.
Each section names the source file and lines it embeds.
-/

namespace MarketTech

/-- Python exception kinds raised by the embedded code paths. -/
inductive PyErr
  | attributeError (msg : String)
  | valueError (msg : String)
  | nameError (msg : String)
  deriving Repr, DecidableEq

/-!
## VPCI signal classification

Embeds `VPCI._determine_signal` from
src/backend/app/indicators/custom/vpci.py lines 89-112.
-/

/-- The body of the per-bar loop of `VPCI._determine_signal` (vpci.py lines
99-110): classify one bar from the VPC and VPCI values at that bar.  `none`
embeds a pandas NaN, detected by the source via `pd.isna`. -/
def determineSignalAt : Option ℚ → Option ℚ → String
  | none, _ => "NEUTRAL"
  | some _, none => "NEUTRAL"
  | some c, some v =>
    if c > 0 then
      if v > 0 then "CONFIRM_BULL" else "DIVERGE_BULL"
    else
      if v < 0 then "CONFIRM_BEAR" else "DIVERGE_BEAR"

/-- `VPCI._determine_signal` (vpci.py lines 89-112): the loop over
`range(len(vpc))` reading `vpc.iloc[i]` and `vpci.iloc[i]` of two aligned
series.  Out-of-range access would raise in pandas; the theorem below only
reads positions that exist in both series. -/
def determineSignal (vpc vpci : List (Option ℚ)) : List String :=
  (List.range vpc.length).map fun i =>
    determineSignalAt (vpc.getD i none) (vpci.getD i none)

/-- The per-bar signal table exactly as the specification words it
(spec section 4.4): undefined inputs give NEUTRAL; VPC>0 and VPCI>0 give
CONFIRM_BULL; VPC>0 and VPCI≤0 give DIVERGE_BULL; VPC≤0 and VPCI<0 give
CONFIRM_BEAR; VPC≤0 and VPCI≥0 give DIVERGE_BEAR. -/
def signalSpecTable : Option ℚ → Option ℚ → String
  | some c, some v =>
    if c > 0 ∧ v > 0 then "CONFIRM_BULL"
    else if c > 0 ∧ v ≤ 0 then "DIVERGE_BULL"
    else if c ≤ 0 ∧ v < 0 then "CONFIRM_BEAR"
    else "DIVERGE_BEAR"
  | _, _ => "NEUTRAL"

/-!
## Weinstein stage slope

Embeds `WeinsteinAnalysis._calculate_slope` from
src/backend/app/indicators/custom/weinstein.py lines 62-87.
-/

/-- One loop iteration of `_calculate_slope` (weinstein.py lines 71-85):
`recent = ma_series.iloc[i - window : i]` (the slice STOPS BEFORE position i),
`slope = (recent.iloc[-1] - recent.iloc[0]) / len(recent)`, then the 0.001
threshold tests.  Positions `i < window` are never assigned and stay NaN
(`none`).  A NaN endpoint makes `slope` NaN, so both comparisons are false and
the class is FLAT; that is the catch-all match arm. -/
def slopeAt (ma : List (Option ℚ)) (window : Nat) (i : Nat) : Option String :=
  if i < window then none
  else
    let recent := (ma.drop (i - window)).take window
    if recent.length < 2 then some "FLAT"
    else
      match recent.head?, recent.getLast? with
      | some (some first), some (some last) =>
        let slope := (last - first) / (recent.length : ℚ)
        if slope > 1/1000 then some "RISING"
        else if slope < -(1/1000) then some "FALLING"
        else some "FLAT"
      | _, _ => some "FLAT"

/-- `WeinsteinAnalysis._calculate_slope` (weinstein.py lines 62-87) over a
moving-average series; the source defaults `window = 4`. -/
def calcSlope (ma : List (Option ℚ)) (window : Nat) : List (Option String) :=
  (List.range ma.length).map (slopeAt ma window)

/-- The slope class as claim C4 words it: determined by the quantity
(MA[t] − MA[t−4])/4 against the threshold 0.001. -/
def slopeSpecC4 (ma : List (Option ℚ)) (t : Nat) : Option String :=
  match ma.getD t none, ma.getD (t - 4) none with
  | some a, some b =>
    if (a - b) / 4 > 1/1000 then some "RISING"
    else if (a - b) / 4 < -(1/1000) then some "FALLING"
    else some "FLAT"
  | _, _ => none

/-!
## Fibonacci retracement and confluence zones

Embeds `FibonacciRetracement` from
src/backend/app/indicators/custom/fibonacci.py.
-/

/-- `FibonacciRetracement.LEVELS` (fibonacci.py line 26). -/
def LEVELS : List ℚ := [0, 236/1000, 382/1000, 1/2, 618/1000, 786/1000, 1]

/-- `FibonacciRetracement.EXTENSION_LEVELS` (fibonacci.py line 27). -/
def EXTENSION_LEVELS : List ℚ := [1272/1000, 1618/1000, 2, 2618/1000]

/-- Result shape of `calculate_levels`; the Python `str(level)` dictionary keys
are embedded as the rational ratio itself. -/
structure FibResult where
  swing_low : ℚ
  swing_high : ℚ
  levels : List (ℚ × ℚ)
  extensions : List (ℚ × ℚ)
  deriving Repr, DecidableEq

/-- `FibonacciRetracement.calculate_levels` (fibonacci.py lines 62-98).  The
retracement mapping is built, then the first pass of the extension loop
evaluates `if trend == "UP"`, where `trend` is bound neither in the function
nor at module scope, so Python raises NameError before anything is returned.
`EXTENSION_LEVELS` is non-empty, so the loop body always runs. -/
def calculateLevels (swing_low swing_high : ℚ) : Except PyErr FibResult :=
  let diff := swing_high - swing_low
  let _levels := LEVELS.map fun level => (level, swing_high - diff * level)
  Except.error (PyErr.nameError "name trend is not defined")

/-- A pooled entry of `price_levels` in `find_confluence_zones` (fibonacci.py
lines 127-151): the source kind tag and the price.  The source dictionaries
also carry a name/level key that nothing downstream reads; it is omitted. -/
structure PriceLevel where
  type : String
  price : ℚ
  deriving Repr, DecidableEq

/-- A Darvas box as consumed by `find_confluence_zones` (only the `status` and
`top` keys are read). -/
structure BoxDict where
  status : String
  top : ℚ
  deriving Repr, DecidableEq

/-- A confluence zone record (fibonacci.py lines 177-182). -/
structure ConfluenceZone where
  price_zone : ℚ × ℚ
  center : ℚ
  strength : Nat
  components : List String
  deriving Repr, DecidableEq

/-- One outer-loop pass of `find_confluence_zones` (fibonacci.py lines
154-182): `matching` starts as `[level1]` and gains every LATER level whose
relative price difference from `level1` is within tolerance; a zone is emitted
when `len(matching) >= 2`, i.e. when at least ONE partner joined `level1`, with
`strength = len(matching) + 1` and `prices` listing `level1` twice. -/
def zoneOfLevel (tolerance : ℚ) (level1 : PriceLevel) (rest : List PriceLevel) :
    Option ConfluenceZone :=
  let matching := level1 :: rest.filter fun level2 =>
    decide (|level1.price - level2.price| / ((level1.price + level2.price) / 2)
      ≤ tolerance)
  if matching.length ≥ 2 then
    let prices := level1.price :: matching.map (·.price)
    let zone_min := (prices.tail).foldl min level1.price
    let zone_max := (prices.tail).foldl max level1.price
    some
      { price_zone := (zone_min, zone_max)
        center := (zone_min + zone_max) / 2
        strength := matching.length + 1
        components := matching.foldl
          (fun acc m => if m.type ∈ acc then acc else acc ++ [m.type])
          [level1.type] }
  else none

/-- The `for i, level1 in enumerate(price_levels)` loop: each level is paired
with the levels after it. -/
def confluenceLoop (tolerance : ℚ) : List PriceLevel → List ConfluenceZone
  | [] => []
  | level1 :: rest =>
    match zoneOfLevel tolerance level1 rest with
    | some z => z :: confluenceLoop tolerance rest
    | none => confluenceLoop tolerance rest

/-- Stable insertion for the final `confluences.sort(key=strength,
reverse=True)` (fibonacci.py line 185): a zone moves before another only when
its strength is strictly larger, preserving source order on ties exactly as
Python's stable sort does. -/
def insertByStrengthDesc (z : ConfluenceZone) :
    List ConfluenceZone → List ConfluenceZone
  | [] => [z]
  | a :: t =>
    if z.strength > a.strength then z :: a :: t else a :: insertByStrengthDesc z t

/-- Stable descending-by-strength sort. -/
def sortByStrengthDesc : List ConfluenceZone → List ConfluenceZone
  | [] => []
  | a :: t => insertByStrengthDesc a (sortByStrengthDesc t)

/-- `FibonacciRetracement.find_confluence_zones` (fibonacci.py lines 100-187):
pool Fibonacci levels, moving-average values and the tops of ACTIVE or
BROKEN_UP boxes, group pairwise within tolerance, and sort the emitted zones by
strength descending.  The source default tolerance is 0.02. -/
def findConfluenceZones (fib_levels : List (ℚ × ℚ))
    (ma_values : List (String × ℚ)) (darvas_boxes : List BoxDict)
    (tolerance : ℚ) : List ConfluenceZone :=
  let price_levels : List PriceLevel :=
    (fib_levels.map fun p => { type := "fibonacci", price := p.2 })
      ++ (ma_values.map fun p => { type := "ma", price := p.2 })
      ++ ((darvas_boxes.filter fun box =>
            decide (box.status = "ACTIVE" ∨ box.status = "BROKEN_UP")).map
          fun box => { type := "darvas_top", price := box.top })
  sortByStrengthDesc (confluenceLoop tolerance price_levels)

/-!
## Data service: OHLCV persistence and weekly aggregation

Embeds `DataService` from src/backend/app/services/data_service.py.
Dates are embedded as day ordinals with day 0 on a Monday, so Python's
`date.weekday()` is `d % 7` and the Monday of the week of `d` is `d - d % 7`.
The relational store is embedded as the insertion-ordered list of persisted
rows; the `(stock_id, date)` lookup of lines 48-56 and 109-117 is a scan of
that list.
-/

/-- A persisted `OHLCDaily` row. -/
structure DailyRecord where
  stock_id : Nat
  date : Nat
  open' : ℚ
  high : ℚ
  low : ℚ
  close : ℚ
  volume : Int
  deriving Repr, DecidableEq

/-- A persisted `OHLCWeekly` row. -/
structure WeeklyRecord where
  stock_id : Nat
  week_start : Nat
  open' : ℚ
  high : ℚ
  low : ℚ
  close : ℚ
  volume : Int
  deriving Repr, DecidableEq

/-- One input dict of `save_ohlcv_daily` (keys date/open/high/low/close/volume). -/
structure DailyInput where
  date : Nat
  open' : ℚ
  high : ℚ
  low : ℚ
  close : ℚ
  volume : Int
  deriving Repr, DecidableEq

/-- One input dict of `save_ohlcv_weekly` (keyed by week_start). -/
structure WeeklyInput where
  week_start : Nat
  open' : ℚ
  high : ℚ
  low : ℚ
  close : ℚ
  volume : Int
  deriving Repr, DecidableEq

/-- The existence check of data_service.py lines 48-56: is a daily row with
this natural key already stored? -/
def hasDailyKey (db : List DailyRecord) (sid d : Nat) : Bool :=
  db.any fun r => decide (r.stock_id = sid ∧ r.date = d)

/-- The existence check of data_service.py lines 109-117 for weekly rows. -/
def hasWeeklyKey (db : List WeeklyRecord) (sid ws : Nat) : Bool :=
  db.any fun r => decide (r.stock_id = sid ∧ r.week_start = ws)

/-- `DataService.save_ohlcv_daily` (data_service.py lines 37-72): for each
input dict, insert a new row only when no row with the same (stock_id, date)
is stored, counting insertions.  The session autoflushes before each lookup,
so rows added earlier in the same run are visible to later duplicate checks.
Returns (saved_count, resulting store). -/
def saveOhlcvDaily (sid : Nat) : List DailyInput → List DailyRecord →
    Nat × List DailyRecord
  | [], db => (0, db)
  | x :: xs, db =>
    if hasDailyKey db sid x.date then
      saveOhlcvDaily sid xs db
    else
      let next := saveOhlcvDaily sid xs
        (db ++ [⟨sid, x.date, x.open', x.high, x.low, x.close, x.volume⟩])
      (next.1 + 1, next.2)

/-- `DataService.save_ohlcv_weekly` (data_service.py lines 98-133): same
insert-if-absent loop keyed by (stock_id, week_start). -/
def saveOhlcvWeekly (sid : Nat) : List WeeklyInput → List WeeklyRecord →
    Nat × List WeeklyRecord
  | [], db => (0, db)
  | x :: xs, db =>
    if hasWeeklyKey db sid x.week_start then
      saveOhlcvWeekly sid xs db
    else
      let next := saveOhlcvWeekly sid xs
        (db ++ [⟨sid, x.week_start, x.open', x.high, x.low, x.close, x.volume⟩])
      (next.1 + 1, next.2)

/-- Descending insertion by date, embedding the `ORDER BY date DESC` of
`get_ohlcv_daily` (data_service.py line 90); the key is unique per stock so
ties cannot occur. -/
def insertDescByDate (r : DailyRecord) : List DailyRecord → List DailyRecord
  | [] => [r]
  | a :: t => if r.date > a.date then r :: a :: t else a :: insertDescByDate r t

/-- Sort a list of daily rows by date descending. -/
def sortDescByDate : List DailyRecord → List DailyRecord
  | [] => []
  | a :: t => insertDescByDate a (sortDescByDate t)

/-- `DataService.get_ohlcv_daily` (data_service.py lines 74-96) as called by
the weekly converter: all rows of the stock, date DESCENDING, limit applied
after ordering. -/
def getOhlcvDaily (db : List DailyRecord) (sid limit : Nat) : List DailyRecord :=
  (sortDescByDate (db.filter fun r => decide (r.stock_id = sid))).take limit

/-- One pass of the grouping loop of `convert_daily_to_weekly`
(data_service.py lines 175-194), in the iteration order produced by
`get_ohlcv_daily`: the FIRST bar seen in a bucket donates `open` (and the
initial close), every later bar overwrites `close` and folds high/low/volume.
Python dicts preserve insertion order, embedded as an ordered list of groups. -/
def addDailyToGroups (groups : List WeeklyInput) (d : DailyRecord) :
    List WeeklyInput :=
  let ws := d.date - d.date % 7
  if groups.any fun g => decide (g.week_start = ws) then
    groups.map fun g =>
      if g.week_start = ws then
        { g with
          high := max g.high d.high
          low := min g.low d.low
          close := d.close
          volume := g.volume + d.volume }
      else g
  else
    groups ++ [⟨ws, d.open', d.high, d.low, d.close, d.volume⟩]

/-- `DataService.convert_daily_to_weekly` (data_service.py lines 159-198):
fetch up to 1000 daily rows (date descending), bucket them by the Monday of
their week, and persist the buckets through `save_ohlcv_weekly`. -/
def convertDailyToWeekly (db : List DailyRecord) (wdb : List WeeklyRecord)
    (sid : Nat) : Nat × List WeeklyRecord :=
  let daily_data := getOhlcvDaily db sid 1000
  if daily_data.isEmpty then (0, wdb)
  else saveOhlcvWeekly sid (daily_data.foldl addDailyToGroups []) wdb

/-!
## Darvas box tracker

Embeds `DarvasBox` from src/backend/app/indicators/custom/darvas_box.py.
-/

/-- One OHLC row as consumed by `DarvasBox.calculate` (high/low/close). -/
structure DarvasRow where
  high : ℚ
  low : ℚ
  close : ℚ
  deriving Repr, DecidableEq, Inhabited

/-- The loop state of `DarvasBox.calculate` (darvas_box.py lines 41-52): the
provisional bounds with their confirmation counters, the running status, and
the tracking arrays (`None`/NaN embedded as `Option.none`; `is_new_box` is a
pandas bool array initialised to `false`). -/
structure DarvasState where
  potential_top : Option ℚ
  potential_bottom : Option ℚ
  top_confirm_count : Nat
  bottom_confirm_count : Nat
  current_status : String
  box_top : List (Option ℚ)
  box_bottom : List (Option ℚ)
  box_status : List (Option String)
  is_new_box : List Bool
  deriving Repr, DecidableEq

/-- The pandas `iloc[i - 1]` index used at darvas_box.py lines 87, 90 and 104:
for `i = 0` the Python expression is `iloc[-1]`, which wraps to the LAST
element of the array. -/
def ilocPrev (n i : Nat) : Nat := if i = 0 then n - 1 else i - 1

/-- One iteration of the `for i in range(len(df))` loop of `DarvasBox.calculate`
(darvas_box.py lines 54-110).  Lines 56-75 maintain the provisional bounds and
counters, lines 78-101 write the tracking arrays.  Lines 104-110 then rebind
the name `is_new_box` — until then the pandas Series — to a plain Python bool
(both branches assign a bool), and line 110 evaluates `is_new_box.iloc[i]`, an
attribute access on `bool`: every iteration therefore raises AttributeError,
whatever the data.  Note the guard `box_top.iloc[i - 1] is not None` at line 87
is always true, because an element of a float Series is NaN, never `None`. -/
def darvasStep (df : List DarvasRow) (st : DarvasState) (i : Nat) :
    Except PyErr DarvasState :=
  let hi := (df.getD i default).high
  let lo := (df.getD i default).low
  let pt := match st.potential_top with
    | none => hi
    | some p => if hi > p then hi else p
  let tcount0 := match st.potential_top with
    | none => 0
    | some p => if hi > p then 0 else st.top_confirm_count
  let pb := match st.potential_bottom with
    | none => lo
    | some p => if lo < p then lo else p
  let bcount0 := match st.potential_bottom with
    | none => 0
    | some p => if lo < p then 0 else st.bottom_confirm_count
  let tcount := if hi < pt then tcount0 + 1 else 0
  let bcount := if lo > pb then bcount0 + 1 else 0
  let st1 :=
    if tcount ≥ 3 then
      { st with
        potential_top := some pt, potential_bottom := some pb,
        top_confirm_count := tcount, bottom_confirm_count := bcount,
        box_top := st.box_top.set i (some pt),
        box_bottom := st.box_bottom.set i (some pb),
        box_status := st.box_status.set i (some "FORMING"),
        current_status := "FORMING" }
    else if bcount ≥ 3 then
      let prev_top := st.box_top.getD (ilocPrev st.box_top.length i) none
      let brokeUp : Bool := match prev_top with
        | some p => decide (hi > p)
        | none => false
      let status :=
        if brokeUp then "BROKEN_UP"
        else if lo < pb then "BROKEN_DOWN"
        else "ACTIVE"
      { st with
        potential_top := some pt, potential_bottom := some pb,
        top_confirm_count := tcount, bottom_confirm_count := bcount,
        box_top := st.box_top.set i prev_top,
        box_bottom := st.box_bottom.set i (some pb),
        box_status := st.box_status.set i (some status),
        current_status := status }
    else
      { st with
        potential_top := some pt, potential_bottom := some pb,
        top_confirm_count := tcount, bottom_confirm_count := bcount }
  let _ := st1
  Except.error (PyErr.attributeError "bool object has no attribute iloc")

/-- The loop of `DarvasBox.calculate`, threading the state through the bar
indices and propagating the raised exception. -/
def darvasLoop (df : List DarvasRow) (st : DarvasState) :
    List Nat → Except PyErr DarvasState
  | [] => Except.ok st
  | i :: rest =>
    match darvasStep df st i with
    | Except.error e => Except.error e
    | Except.ok st' => darvasLoop df st' rest

/-- Result dictionary of `DarvasBox.calculate` (darvas_box.py lines 112-117);
`Option.none` result embeds the empty dict returned for fewer than 5 bars. -/
structure DarvasResult where
  box_top : List (Option ℚ)
  box_bottom : List (Option ℚ)
  box_status : List (Option String)
  is_new_box : List Bool
  deriving Repr, DecidableEq

/-- `DarvasBox.calculate` (darvas_box.py lines 24-117). -/
def darvasCalculate (df : List DarvasRow) : Except PyErr (Option DarvasResult) :=
  if df.length < 5 then Except.ok none
  else
    let st0 : DarvasState :=
      { potential_top := none, potential_bottom := none,
        top_confirm_count := 0, bottom_confirm_count := 0,
        current_status := "FORMING",
        box_top := List.replicate df.length none,
        box_bottom := List.replicate df.length none,
        box_status := List.replicate df.length none,
        is_new_box := List.replicate df.length false }
    match darvasLoop df st0 (List.range df.length) with
    | Except.error e => Except.error e
    | Except.ok st =>
      Except.ok (some ⟨st.box_top, st.box_bottom, st.box_status, st.is_new_box⟩)

/-- A box dictionary emitted by `DarvasBox.get_all_boxes` (darvas_box.py lines
151-157); dates are the positional index of the frame. -/
structure BoxOut where
  start_date : Nat
  end_date : Option Nat
  top : Option ℚ
  bottom : Option ℚ
  status : String
  deriving Repr, DecidableEq

/-- One iteration of the box-collection loop of `get_all_boxes`
(darvas_box.py lines 142-180), folding (collected boxes, open box). -/
def boxFoldStep (res : DarvasResult) (acc : List BoxOut × Option BoxOut)
    (i : Nat) : List BoxOut × Option BoxOut :=
  let boxes := acc.1
  let current := acc.2
  let status := res.box_status.getD i none
  if status = some "FORMING" ∧ res.is_new_box.getD i false then
    let boxes' := match current with
      | some cb => boxes ++ [{ cb with end_date := some (i - 1) }]
      | none => boxes
    (boxes', some ⟨i, none, res.box_top.getD i none,
      res.box_bottom.getD i none, "FORMING"⟩)
  else if status = some "ACTIVE" then
    let step1 : List BoxOut × Option BoxOut := match current with
      | some cb =>
        if cb.status = "ACTIVE" then
          (boxes ++ [{ cb with end_date := some (i - 1) }], none)
        else (boxes, some cb)
      | none => (boxes, none)
    match step1.2 with
    | none => (step1.1, some ⟨i, none, res.box_top.getD i none,
        res.box_bottom.getD i none, "ACTIVE"⟩)
    | some cb => (step1.1, some cb)
  else if status = some "BROKEN_UP" ∨ status = some "BROKEN_DOWN" then
    match current with
    | some cb => (boxes ++ [{ cb with end_date := some (i - 1) }], none)
    | none => (boxes, none)
  else (boxes, current)

/-- `DarvasBox.get_all_boxes` (darvas_box.py lines 119-186): run `calculate`,
return `[]` on the empty dict, otherwise collect the ordered box history.  Any
exception raised by `calculate` propagates to the caller. -/
def darvasGetAllBoxes (df : List DarvasRow) : Except PyErr (List BoxOut) :=
  match darvasCalculate df with
  | Except.error e => Except.error e
  | Except.ok none => Except.ok []
  | Except.ok (some res) =>
    let folded := (List.range df.length).foldl (boxFoldStep res) ([], none)
    Except.ok (match folded.2, res.box_status.getLast? with
      | some cb, some (some "ACTIVE") => folded.1 ++ [cb]
      | _, _ => folded.1)

/-!
## VPCI calculation

Embeds `VPCI.calculate` from src/backend/app/indicators/custom/vpci.py
together with the moving-average helpers it calls from
src/backend/app/indicators/basic/moving_average.py.
-/

/-- One row of the frame consumed by `VPCI.calculate` (close and volume). -/
structure PriceVolRow where
  close : ℚ
  volume : ℚ
  deriving Repr, DecidableEq

/-- `series.rolling(window=n).mean()`: NaN (`none`) while the window is not
yet full, then the arithmetic mean of the last `n` values. -/
def rollingMean (s : List ℚ) (n : Nat) : List (Option ℚ) :=
  (List.range s.length).map fun i =>
    if i + 1 < n then none
    else some ((((s.drop (i + 1 - n)).take n).foldl (· + ·) 0) / (n : ℚ))

/-- `series.rolling(window=n).sum()` under the same window rule. -/
def rollingSum (s : List ℚ) (n : Nat) : List (Option ℚ) :=
  (List.range s.length).map fun i =>
    if i + 1 < n then none
    else some (((s.drop (i + 1 - n)).take n).foldl (· + ·) 0)

/-- Elementwise Series subtraction; NaN propagates. -/
def seriesSub (a b : List (Option ℚ)) : List (Option ℚ) :=
  List.zipWith
    (fun x y => match x, y with
      | some u, some v => some (u - v)
      | _, _ => none) a b

/-- Elementwise Series division; NaN propagates.  pandas produces ±inf/NaN on
a zero denominator instead of raising; such values are never observed before
`VPCI.calculate` aborts, and the embedding maps them through Lean's q/0 = 0. -/
def seriesDiv (a b : List (Option ℚ)) : List (Option ℚ) :=
  List.zipWith
    (fun x y => match x, y with
      | some u, some v => some (u / v)
      | _, _ => none) a b

/-- `MovingAverages.sma` (moving_average.py lines 16-28). -/
def sma (series : List ℚ) (period : Nat) : List (Option ℚ) :=
  rollingMean series period

/-- `MovingAverages.vwma` (moving_average.py lines 44-60):
`(close*volume).rolling(n).sum() / volume.rolling(n).sum()`. -/
def vwma (close volume : List ℚ) (period : Nat) : List (Option ℚ) :=
  let pv := List.zipWith (· * ·) close volume
  seriesDiv (rollingSum pv period) (rollingSum volume period)

/-- Result dictionary shape of `VPCI.calculate` (vpci.py lines 80-87); the
`Option.none` result embeds the empty dict returned below `long_period` rows.
No value of this shape is ever produced — see `vpciCalculate`. -/
structure VPCIOut where
  vpci : List (Option ℚ)
  vpc : List (Option ℚ)
  vpr : List (Option ℚ)
  vm : List (Option ℚ)
  alpha : List (Option ℚ)
  signal : List String
  deriving Repr, DecidableEq

/-- `VPCI.calculate` (vpci.py lines 34-87) with the source defaults
`short_period = 5`, `long_period = 20` passed explicitly.  Below `long_period`
rows it returns the empty dict.  Otherwise it builds VWMA/SMA based VPC and
VPR, and then line 65 evaluates `MovingAverages.volume_ma(volume,
self.short_period)`: the class `MovingAverages` defines no attribute
`volume_ma` (the helper lives on `Volume` in indicators/basic/volume.py), so
Python raises AttributeError before VM, Alpha or the VPCI product exist.  Had
execution reached line 72, `close_std / volume_std if volume_std != 0 else
1.0` would itself raise ValueError: `volume_std != 0` is an elementwise
Series whose truth value is ambiguous. -/
def vpciCalculate (short_period long_period : Nat) (df : List PriceVolRow) :
    Except PyErr (Option VPCIOut) :=
  if df.length < long_period then Except.ok none
  else
    let close := df.map (·.close)
    let volume := df.map (·.volume)
    let vwma_long := vwma close volume long_period
    let sma_long := sma close long_period
    let vwma_short := vwma close volume short_period
    let sma_short := sma close short_period
    let vpc := seriesSub vwma_long sma_long
    let vpr := seriesDiv vwma_short sma_short
    let _ := (vpc, vpr)
    Except.error (PyErr.attributeError
      "type object MovingAverages has no attribute volume_ma")

/-!
## KIS API client: 401 handling

Embeds `KISAPIClient._request` (src/backend/app/services/kis_api/client.py
lines 38-96) and the token cache of `KISAuth`
(src/backend/app/services/kis_api/auth.py lines 18-77).  The environment is
the list of per-attempt upstream outcomes; the Redis token cache is a boolean
(token present or not) instrumented with counters for token-endpoint requests
and invalidations.  The token endpoint is assumed to succeed, which the claim
presupposes (re-authentication is possible at all).
-/

/-- The outcome the upstream yields for one attempt of `_request`. -/
inductive HTTPOutcome
  | success (v : Nat)
  | httpStatusError (code : Nat)
  | otherError
  deriving Repr, DecidableEq

/-- The `kis:access_token` cache with instrumentation counters. -/
structure AuthState where
  cached : Bool
  token_requests : Nat
  invalidations : Nat
  deriving Repr, DecidableEq

/-- `KISAuth.get_access_token` (auth.py lines 18-36) as reached through
`_get_headers`: reuse the cached token, else request and cache a fresh one. -/
def getHeaders (st : AuthState) : AuthState :=
  if st.cached then st
  else { st with cached := true, token_requests := st.token_requests + 1 }

/-- `KISAuth.invalidate_token` (auth.py lines 73-77). -/
def invalidateToken (st : AuthState) : AuthState :=
  { st with cached := false, invalidations := st.invalidations + 1 }

/-- The failure `_request` surfaces when it re-raises. -/
inductive ReqErr
  | httpStatus (code : Nat)
  | other
  deriving Repr, DecidableEq

/-- The retry loop of `_request` (client.py lines 61-94).  The outcome list
carries one entry per remaining attempt, so the source's
`attempt < retry_count - 1` test is `rest` being non-empty.  On a 401 status
the token is invalidated and `_get_headers` re-authenticates (lines 80-83) —
on EVERY 401, including one on the final attempt, where the refreshed headers
go unused because line 87 re-raises.  A non-401 status or other exception
retries without touching the token.  An exhausted loop falls through to
`return None` (line 96), which cannot happen for a positive retry count. -/
def requestLoop (st : AuthState) :
    List HTTPOutcome → Except ReqErr (Option Nat) × AuthState
  | [] => (Except.ok none, st)
  | o :: rest =>
    match o with
    | HTTPOutcome.success v => (Except.ok (some v), st)
    | HTTPOutcome.httpStatusError code =>
      let st' := if code = 401 then getHeaders (invalidateToken st) else st
      if rest.isEmpty then (Except.error (ReqErr.httpStatus code), st')
      else requestLoop st' rest
    | HTTPOutcome.otherError =>
      if rest.isEmpty then (Except.error ReqErr.other, st)
      else requestLoop st rest

/-- `KISAPIClient._request` (client.py lines 38-96): `_get_headers` runs once
before the loop, then up to `retry_count` attempts run; the configured default
(config.py line 31) is 3, so a caller passes one upstream outcome per
attempt, three in total. -/
def kisRequest (outcomes : List HTTPOutcome) (st : AuthState) :
    Except ReqErr (Option Nat) × AuthState :=
  requestLoop (getHeaders st) outcomes

/-!
## KIS daily-price response parsing

Embeds `KISPriceService._parse_daily_price`
(src/backend/app/services/kis_api/price.py lines 125-162).  A provider row is
a JSON object with string values; `item.get(key, 0)` yields the row's string
when the key is present and the integer 0 otherwise, so `float(...)` /
`int(...)` receive either that string or the literal 0.
-/

/-- Digits of a character run folded to a number (all characters are checked
to be decimal digits before this is applied). -/
def digitsToNat (cs : List Char) : Nat :=
  cs.foldl (fun acc c => 10 * acc + (c.toNat - 48)) 0

/-- Days of a month under the Gregorian leap rule, as `datetime` validates. -/
def daysInMonth (y m : Nat) : Nat :=
  if m = 2 then
    if (y % 4 = 0 ∧ y % 100 ≠ 0) ∨ y % 400 = 0 then 29 else 28
  else if m = 4 ∨ m = 6 ∨ m = 9 ∨ m = 11 then 30 else 31

/-- The source's date acceptance for one row (price.py lines 142-146): the
`len(date_str) == 8` guard combined with
`datetime.strptime(date_str, "%Y%m%d").date()`, which on an 8-character
string takes 4 digit characters for the year, 2 for the month and 2 for the
day and validates them as a real calendar date (year ≥ 1, month 1-12, day
within the month).  `none` embeds both the failed length guard (`continue`)
and a strptime ValueError (caught, row skipped). -/
def parseYMD8 (s : String) : Option (Nat × Nat × Nat) :=
  let cs := s.toList
  if cs.length = 8 ∧ cs.all Char.isDigit then
    let y := digitsToNat (cs.take 4)
    let m := digitsToNat ((cs.drop 4).take 2)
    let d := digitsToNat (cs.drop 6)
    if 1 ≤ y ∧ 1 ≤ m ∧ m ≤ 12 ∧ 1 ≤ d ∧ d ≤ daysInMonth y m then
      some (y, m, d)
    else none
  else none

/-- An unsigned Python decimal literal: digits with at most one dot and at
least one digit overall. -/
def parseUnsignedDecimal (cs : List Char) : Option ℚ :=
  let intPart := cs.takeWhile Char.isDigit
  let rest := cs.dropWhile Char.isDigit
  match rest with
  | [] => if intPart.isEmpty then none else some (digitsToNat intPart : ℚ)
  | '.' :: frac =>
    if frac.all Char.isDigit ∧ (intPart ≠ [] ∨ frac ≠ []) then
      some ((digitsToNat intPart : ℚ)
        + (digitsToNat frac : ℚ) / ((10 : ℚ) ^ frac.length))
    else none
  | _ => none

/-- Python `float(s)` on the provider's numeric strings: optional sign and a
decimal literal, `none` for a ValueError.  (The exponent, infinity and
whitespace forms accepted by CPython never occur in this provider's decimal
fields and are not modelled.) -/
def pyFloat (s : String) : Option ℚ :=
  match s.toList with
  | '+' :: cs => parseUnsignedDecimal cs
  | '-' :: cs => (parseUnsignedDecimal cs).map Neg.neg
  | cs => parseUnsignedDecimal cs

/-- Python `int(s)`: optional sign and a non-empty digit run, `none` for a
ValueError (e.g. a fractional string). -/
def pyInt (s : String) : Option Int :=
  match s.toList with
  | '+' :: cs =>
    if cs ≠ [] ∧ cs.all Char.isDigit then some (digitsToNat cs : Int) else none
  | '-' :: cs =>
    if cs ≠ [] ∧ cs.all Char.isDigit then some (-(digitsToNat cs : Int))
    else none
  | cs =>
    if cs ≠ [] ∧ cs.all Char.isDigit then some (digitsToNat cs : Int) else none

/-- One provider row: the fields `_parse_daily_price` reads, each possibly
absent. -/
structure KISItem where
  stck_bsop_date : Option String
  stck_oprc : Option String
  stck_hgpr : Option String
  stck_lwpr : Option String
  stck_clpr : Option String
  stck_vol : Option String
  deriving Repr, DecidableEq

/-- `float(item.get(key, 0))` (price.py lines 150-153): a missing key turns
into `float(0) = 0.0`, never a ValueError. -/
def floatField : Option String → Option ℚ
  | none => some 0
  | some s => pyFloat s

/-- `int(item.get("stck_vol", 0))` (price.py line 154). -/
def intField : Option String → Option Int
  | none => some 0
  | some s => pyInt s

/-- One parsed bar (price.py lines 148-155); the date is the (y, m, d)
triple whose `isoformat` the source stores. -/
structure ParsedBar where
  date : Nat × Nat × Nat
  open' : ℚ
  high : ℚ
  low : ℚ
  close : ℚ
  volume : Int
  deriving Repr, DecidableEq

/-- Order key of a date triple.  ISO `YYYY-MM-DD` strings (zero-padded, year
at most 4 digits by the strptime format) compare lexicographically exactly as
this number compares. -/
def dateKey (d : Nat × Nat × Nat) : Nat := d.1 * 10000 + d.2.1 * 100 + d.2.2

/-- The per-row try block of `_parse_daily_price` (price.py lines 139-158):
skip the row when the date guard fails or a numeric conversion raises,
otherwise emit the bar. -/
def parseRow (item : KISItem) : Option ParsedBar :=
  match parseYMD8 (item.stck_bsop_date.getD "") with
  | none => none
  | some d =>
    match floatField item.stck_oprc, floatField item.stck_hgpr,
          floatField item.stck_lwpr, floatField item.stck_clpr,
          intField item.stck_vol with
    | some o, some h, some l, some c, some v => some ⟨d, o, h, l, c, v⟩
    | _, _, _, _, _ => none

/-- Stable ascending insertion by date, embedding
`parsed_data.sort(key=lambda x: x["date"])` (price.py line 161): a bar moves
before another only when its date key is strictly smaller, preserving input
order on ties exactly as Python's stable sort does. -/
def insertAscByDate (b : ParsedBar) : List ParsedBar → List ParsedBar
  | [] => [b]
  | a :: t =>
    if dateKey b.date < dateKey a.date then b :: a :: t
    else a :: insertAscByDate b t

/-- Stable ascending sort by date. -/
def sortAscByDate : List ParsedBar → List ParsedBar
  | [] => []
  | a :: t => insertAscByDate a (sortAscByDate t)

/-- `KISPriceService._parse_daily_price` (price.py lines 125-162): parse each
row, skipping malformed ones, then sort ascending by date. -/
def parseDailyPrice (rows : List KISItem) : List ParsedBar :=
  sortAscByDate (rows.filterMap parseRow)

/-!
## Theorems

The verification results, one principal theorem per claim (with the
counterexamples, amended statements and witnesses that accompany them),
together with the helper lemmas they use.
-/

theorem determineSignalAt_eq_table (c v : Option ℚ) :
    determineSignalAt c v = signalSpecTable c v := by
  match c, v with
  | none, none => rfl
  | none, some _ => rfl
  | some _, none => rfl
  | some c, some v =>
    by_cases hc : (0 : ℚ) < c
    · by_cases hv : (0 : ℚ) < v
      · simp [determineSignalAt, signalSpecTable, hc, hv]
      · simp [determineSignalAt, signalSpecTable, hc, hv, le_of_not_lt hv]
    · by_cases hv : v < (0 : ℚ)
      · simp [determineSignalAt, signalSpecTable, hc, hv, le_of_not_lt hc,
          not_lt.mpr (le_of_lt hv)]
      · simp [determineSignalAt, signalSpecTable, hc, hv, le_of_not_lt hc]

/-- C8: for every pair of aligned VPC and VPCI series and every bar, the
emitted signal is NEUTRAL when either value is undefined, CONFIRM_BULL when
VPC>0 and VPCI>0, DIVERGE_BULL when VPC>0 and VPCI≤0, CONFIRM_BEAR when
VPC≤0 and VPCI<0, and DIVERGE_BEAR when VPC≤0 and VPCI≥0. -/
theorem c8_determineSignal_matches_table (vpc vpci : List (Option ℚ)) (i : Nat)
    (hi : i < vpc.length) :
    (determineSignal vpc vpci)[i]?
      = some (signalSpecTable (vpc.getD i none) (vpci.getD i none)) := by
  unfold determineSignal
  rw [List.getElem?_map, List.getElem?_range hi]
  simp [determineSignalAt_eq_table]

/-- Witness for C8 at a concrete bar: VPC = 1 > 0 and VPCI = 0 ≤ 0 at
position 0 of two two-bar series classifies as DIVERGE_BULL. -/
theorem c8_determineSignal_matches_table_witness :
    (determineSignal [some 1, some 0] [some 0, some 5])[0]?
      = some (signalSpecTable
          (([some 1, some 0] : List (Option ℚ)).getD 0 none)
          (([some 0, some 5] : List (Option ℚ)).getD 0 none)) :=
  c8_determineSignal_matches_table [some 1, some 0] [some 0, some 5] 0 (by decide)

/-- Counterexample to C4 as stated: for MA = [0,0,0,0,0,10] at t = 5 (which has
4 defined prior values), (MA[5]−MA[1])/4 = 2.5 > 0.001 so the claim demands
RISING, but the source computes (MA[4]−MA[1])/4 = 0 and yields FLAT. -/
theorem calcSlope_getElem (ma : List (Option ℚ)) (window i : Nat)
    (h : i < ma.length) :
    (calcSlope ma window)[i]? = some (slopeAt ma window i) := by
  unfold calcSlope
  rw [List.getElem?_map, List.getElem?_range h, Option.map_some']

theorem c4_slope_counterexample :
    (calcSlope [some 0, some 0, some 0, some 0, some 0, some 10] 4)[5]?
        = some (some "FLAT")
      ∧ slopeSpecC4 [some 0, some 0, some 0, some 0, some 0, some 10] 5
        = some "RISING" := by
  constructor
  · rw [calcSlope_getElem _ _ _ (by norm_num)]
    norm_num [slopeAt]
  · norm_num [slopeSpecC4]

theorem slope_recent_head (ma : List (Option ℚ)) (t : Nat) :
    ((ma.drop (t - 4)).take 4).head? = ma[t - 4]? := by
  rw [List.head?_eq_getElem?, List.getElem?_take, if_pos (by omega : 0 < 4),
    List.getElem?_drop, Nat.add_zero]

/-- C4 amended: the slope class at position t is classified from
(MA[t−1] − MA[t−4])/4 — the source window `iloc[i-4:i]` excludes position t
itself — RISING above 0.001, FALLING below −0.001, FLAT otherwise. -/
theorem c4_slope_amended (ma : List (Option ℚ)) (t : Nat) (a b : ℚ)
    (h4 : 4 ≤ t) (hlt : t < ma.length)
    (ha : ma[t - 1]? = some (some a)) (hb : ma[t - 4]? = some (some b)) :
    (calcSlope ma 4)[t]?
      = some (if (a - b) / 4 > 1/1000 then some "RISING"
          else if (a - b) / 4 < -(1/1000) then some "FALLING"
          else some "FLAT") := by
  rw [calcSlope_getElem _ _ _ hlt]
  have hnat : ¬ t < 4 := not_lt.mpr h4
  have hlen : ((ma.drop (t - 4)).take 4).length = 4 := by
    simp only [List.length_take, List.length_drop]
    omega
  have hhead : ((ma.drop (t - 4)).take 4).head? = some (some b) := by
    rw [slope_recent_head ma t]; exact hb
  have hlast : ((ma.drop (t - 4)).take 4).getLast? = some (some a) := by
    rw [List.getLast?_eq_getElem? _, hlen, List.getElem?_take,
      if_pos (by omega : 4 - 1 < 4), List.getElem?_drop]
    have heq : t - 4 + (4 - 1) = t - 1 := by omega
    rw [heq]; exact ha
  unfold slopeAt
  rw [if_neg hnat]
  dsimp only
  rw [hlen, hhead, hlast]
  norm_num

/-- Witness for C4 amended at MA = [0,0,0,0,0,10], t = 5: the source window
endpoints are MA[4] = 0 and MA[1] = 0, so the class is FLAT. -/
theorem c4_slope_amended_witness :
    (calcSlope [some 0, some 0, some 0, some 0, some 0, some 10] 4)[5]?
      = some (if ((0 : ℚ) - 0) / 4 > 1/1000 then some "RISING"
          else if ((0 : ℚ) - 0) / 4 < -(1/1000) then some "FALLING"
          else some "FLAT") :=
  c4_slope_amended [some 0, some 0, some 0, some 0, some 0, some 10] 5 0 0
    (by decide) (by decide) rfl rfl

/-- C5: with swing_low = 100 < swing_high = 200, `calculate_levels` raises
NameError on the unbound `trend` instead of returning the retracement and
extension mappings the claim describes. -/
theorem c5_calculate_levels_raises :
    calculateLevels 100 200
      = Except.error (PyErr.nameError "name trend is not defined") := rfl

/-- C6: two moving-average levels 100 and 101 (within the 2% tolerance of each
other) and nothing else are pooled; the claim says no zone may be emitted
(fewer than 3 levels) and that strength equals the count of contributing
levels, but the source emits one zone from the 2-level cluster with strength 3:
a zone is emitted once `len(matching) >= 2` where `matching` already contains
`level1`, and `strength = len(matching) + 1` counts `level1` twice. -/
theorem c6_confluence_counterexample :
    findConfluenceZones [] [("sma20", 100), ("sma60", 101)] [] (1/50)
      = [{ price_zone := (100, 101), center := 201/2, strength := 3,
           components := ["ma"] }] := by
  norm_num [findConfluenceZones, confluenceLoop, zoneOfLevel,
    sortByStrengthDesc, insertByStrengthDesc, List.filter, List.foldl]

/-- C1: two stored daily bars of one calendar week — Monday (day 0) with
open 1, high 5, low 1, close 2, volume 10 and Tuesday (day 1) with open 3,
high 6, low 2, close 4, volume 20.  The claim demands one weekly bar with
open 1 (chronologically first bar's open) and close 4 (chronologically last
bar's close); the source iterates the bars date-DESCENDING and produces
open 3 (Tuesday's open) and close 2 (Monday's close).  High 6, low 1 and
volume 30 agree with the claim. -/
theorem c1_weekly_open_close_reversed :
    convertDailyToWeekly
      [⟨1, 0, 1, 5, 1, 2, 10⟩, ⟨1, 1, 3, 6, 2, 4, 20⟩] [] 1
      = (1, [⟨1, 0, 3, 6, 1, 2, 30⟩]) := by
  norm_num [convertDailyToWeekly, getOhlcvDaily, sortDescByDate,
    insertDescByDate, addDailyToGroups, saveOhlcvWeekly, hasWeeklyKey,
    List.filter, List.foldl]

theorem hasDailyKey_append (db l : List DailyRecord) (sid d : Nat) :
    hasDailyKey (db ++ l) sid d = (hasDailyKey db sid d || hasDailyKey l sid d) := by
  simp [hasDailyKey, List.any_append]

theorem saveOhlcvDaily_split (sid : Nat) (xs : List DailyInput) :
    ∀ db : List DailyRecord, ∃ new,
      (saveOhlcvDaily sid xs db).2 = db ++ new
      ∧ (saveOhlcvDaily sid xs db).1 = new.length
      ∧ ∀ r ∈ new, r.stock_id = sid ∧ hasDailyKey db sid r.date = false := by
  induction xs with
  | nil =>
    intro db
    exact ⟨[], by simp [saveOhlcvDaily], by simp [saveOhlcvDaily], by simp⟩
  | cons x xs ih =>
    intro db
    by_cases h : hasDailyKey db sid x.date
    · obtain ⟨new, h1, h2, h3⟩ := ih db
      exact ⟨new, by simp [saveOhlcvDaily, h, h1],
        by simp [saveOhlcvDaily, h, h2], h3⟩
    · obtain ⟨new, h1, h2, h3⟩ :=
        ih (db ++ [⟨sid, x.date, x.open', x.high, x.low, x.close, x.volume⟩])
      refine ⟨⟨sid, x.date, x.open', x.high, x.low, x.close, x.volume⟩ :: new,
        ?_, ?_, ?_⟩
      · simp only [saveOhlcvDaily, if_neg h]
        rw [h1]
        simp
      · simp only [saveOhlcvDaily, if_neg h]
        rw [h2]
        simp
      · intro r hr
        rcases List.mem_cons.mp hr with hr | hr
        · subst hr
          exact ⟨rfl, Bool.not_eq_true _ ▸ h⟩
        · obtain ⟨hsid, hkey⟩ := h3 r hr
          rw [hasDailyKey_append, Bool.or_eq_false_iff] at hkey
          exact ⟨hsid, hkey.1⟩

theorem saveOhlcvDaily_covers (sid : Nat) (xs : List DailyInput) :
    ∀ db : List DailyRecord, ∀ x ∈ xs,
      hasDailyKey (saveOhlcvDaily sid xs db).2 sid x.date = true := by
  induction xs with
  | nil => intro db x hx; cases hx
  | cons x xs ih =>
    intro db y hy
    rcases List.mem_cons.mp hy with hy | hy
    · subst hy
      by_cases h : hasDailyKey db sid y.date
      · simp only [saveOhlcvDaily, if_pos h]
        obtain ⟨new, h1, -, -⟩ := saveOhlcvDaily_split sid xs db
        rw [h1, hasDailyKey_append, h]
        rfl
      · simp only [saveOhlcvDaily, if_neg h]
        obtain ⟨new, h1, -, -⟩ := saveOhlcvDaily_split sid xs
          (db ++ [⟨sid, y.date, y.open', y.high, y.low, y.close, y.volume⟩])
        rw [h1, hasDailyKey_append, hasDailyKey_append]
        have : hasDailyKey
            [(⟨sid, y.date, y.open', y.high, y.low, y.close, y.volume⟩ :
              DailyRecord)] sid y.date = true := by
          simp [hasDailyKey]
        rw [this]
        simp
    · by_cases h : hasDailyKey db sid x.date
      · simp only [saveOhlcvDaily, if_pos h]
        exact ih db y hy
      · simp only [saveOhlcvDaily, if_neg h]
        exact ih _ y hy

theorem saveOhlcvDaily_noop (sid : Nat) (xs : List DailyInput)
    (db : List DailyRecord)
    (h : ∀ x ∈ xs, hasDailyKey db sid x.date = true) :
    saveOhlcvDaily sid xs db = (0, db) := by
  induction xs with
  | nil => rfl
  | cons x xs ih =>
    simp only [saveOhlcvDaily, if_pos (h x (List.mem_cons_self x xs))]
    exact ih fun y hy => h y (List.mem_cons_of_mem x hy)

theorem hasWeeklyKey_append (db l : List WeeklyRecord) (sid d : Nat) :
    hasWeeklyKey (db ++ l) sid d
      = (hasWeeklyKey db sid d || hasWeeklyKey l sid d) := by
  simp [hasWeeklyKey, List.any_append]

theorem saveOhlcvWeekly_split (sid : Nat) (xs : List WeeklyInput) :
    ∀ db : List WeeklyRecord, ∃ new,
      (saveOhlcvWeekly sid xs db).2 = db ++ new
      ∧ (saveOhlcvWeekly sid xs db).1 = new.length
      ∧ ∀ r ∈ new, r.stock_id = sid ∧ hasWeeklyKey db sid r.week_start = false := by
  induction xs with
  | nil =>
    intro db
    exact ⟨[], by simp [saveOhlcvWeekly], by simp [saveOhlcvWeekly], by simp⟩
  | cons x xs ih =>
    intro db
    by_cases h : hasWeeklyKey db sid x.week_start
    · obtain ⟨new, h1, h2, h3⟩ := ih db
      exact ⟨new, by simp [saveOhlcvWeekly, h, h1],
        by simp [saveOhlcvWeekly, h, h2], h3⟩
    · obtain ⟨new, h1, h2, h3⟩ :=
        ih (db ++ [⟨sid, x.week_start, x.open', x.high, x.low, x.close, x.volume⟩])
      refine ⟨⟨sid, x.week_start, x.open', x.high, x.low, x.close, x.volume⟩ :: new,
        ?_, ?_, ?_⟩
      · simp only [saveOhlcvWeekly, if_neg h]
        rw [h1]
        simp
      · simp only [saveOhlcvWeekly, if_neg h]
        rw [h2]
        simp
      · intro r hr
        rcases List.mem_cons.mp hr with hr | hr
        · subst hr
          exact ⟨rfl, Bool.not_eq_true _ ▸ h⟩
        · obtain ⟨hsid, hkey⟩ := h3 r hr
          rw [hasWeeklyKey_append, Bool.or_eq_false_iff] at hkey
          exact ⟨hsid, hkey.1⟩

theorem saveOhlcvWeekly_covers (sid : Nat) (xs : List WeeklyInput) :
    ∀ db : List WeeklyRecord, ∀ x ∈ xs,
      hasWeeklyKey (saveOhlcvWeekly sid xs db).2 sid x.week_start = true := by
  induction xs with
  | nil => intro db x hx; cases hx
  | cons x xs ih =>
    intro db y hy
    rcases List.mem_cons.mp hy with hy | hy
    · subst hy
      by_cases h : hasWeeklyKey db sid y.week_start
      · simp only [saveOhlcvWeekly, if_pos h]
        obtain ⟨new, h1, -, -⟩ := saveOhlcvWeekly_split sid xs db
        rw [h1, hasWeeklyKey_append, h]
        rfl
      · simp only [saveOhlcvWeekly, if_neg h]
        obtain ⟨new, h1, -, -⟩ := saveOhlcvWeekly_split sid xs
          (db ++ [⟨sid, y.week_start, y.open', y.high, y.low, y.close, y.volume⟩])
        rw [h1, hasWeeklyKey_append, hasWeeklyKey_append]
        have : hasWeeklyKey
            [(⟨sid, y.week_start, y.open', y.high, y.low, y.close, y.volume⟩ :
              WeeklyRecord)] sid y.week_start = true := by
          simp [hasWeeklyKey]
        rw [this]
        simp
    · by_cases h : hasWeeklyKey db sid x.week_start
      · simp only [saveOhlcvWeekly, if_pos h]
        exact ih db y hy
      · simp only [saveOhlcvWeekly, if_neg h]
        exact ih _ y hy

theorem saveOhlcvWeekly_noop (sid : Nat) (xs : List WeeklyInput)
    (db : List WeeklyRecord)
    (h : ∀ x ∈ xs, hasWeeklyKey db sid x.week_start = true) :
    saveOhlcvWeekly sid xs db = (0, db) := by
  induction xs with
  | nil => rfl
  | cons x xs ih =>
    simp only [saveOhlcvWeekly, if_pos (h x (List.mem_cons_self x xs))]
    exact ih fun y hy => h y (List.mem_cons_of_mem x hy)

/-- C9: `save_ohlcv_daily` and `save_ohlcv_weekly` insert only rows whose
natural key (stock, date / week_start) is absent, leave every already-stored
row untouched (the prior store is an unchanged prefix of the result), return
the count of newly inserted rows, and a second run of the same save over the
resulting store inserts zero rows and leaves the store unchanged. -/
theorem c9_save_insert_if_absent_idempotent (sid : Nat)
    (db : List DailyRecord) (xs : List DailyInput)
    (wdb : List WeeklyRecord) (ws : List WeeklyInput) :
    (∃ new, (saveOhlcvDaily sid xs db).2 = db ++ new
      ∧ (saveOhlcvDaily sid xs db).1 = new.length
      ∧ (∀ r ∈ new, r.stock_id = sid ∧ hasDailyKey db sid r.date = false)
      ∧ saveOhlcvDaily sid xs (saveOhlcvDaily sid xs db).2
          = (0, (saveOhlcvDaily sid xs db).2))
    ∧ (∃ new, (saveOhlcvWeekly sid ws wdb).2 = wdb ++ new
      ∧ (saveOhlcvWeekly sid ws wdb).1 = new.length
      ∧ (∀ r ∈ new, r.stock_id = sid ∧ hasWeeklyKey wdb sid r.week_start = false)
      ∧ saveOhlcvWeekly sid ws (saveOhlcvWeekly sid ws wdb).2
          = (0, (saveOhlcvWeekly sid ws wdb).2)) := by
  constructor
  · obtain ⟨new, h1, h2, h3⟩ := saveOhlcvDaily_split sid xs db
    exact ⟨new, h1, h2, h3,
      saveOhlcvDaily_noop sid xs _ (saveOhlcvDaily_covers sid xs db)⟩
  · obtain ⟨new, h1, h2, h3⟩ := saveOhlcvWeekly_split sid ws wdb
    exact ⟨new, h1, h2, h3,
      saveOhlcvWeekly_noop sid ws _ (saveOhlcvWeekly_covers sid ws wdb)⟩

/-- C2: a 9-bar series realising the claim's scenario — a top (high 10 at bar
0) that bars 1-3 fail to break, a bottom (low 5 at bar 4) that bars 5-7 fail
to break, then bar 8 whose high 11 exceeds the top.  The claim says the box
history is returned without raising, with FORMING→ACTIVE and then BROKEN_UP
transitions; the source instead raises AttributeError on the very first bar
(`is_new_box`, rebound to a bool at lines 104-108, has no `.iloc`), so
`calculate` and `get_all_boxes` never return for any series of length ≥ 5. -/
theorem c2_darvas_always_raises :
    darvasGetAllBoxes
        [⟨10, 8, 9⟩, ⟨9, 7, 8⟩, ⟨9, 7, 8⟩, ⟨9, 7, 8⟩, ⟨9, 5, 6⟩,
         ⟨9, 6, 7⟩, ⟨9, 6, 7⟩, ⟨9, 6, 7⟩, ⟨11, 7, 10⟩]
      = Except.error (PyErr.attributeError "bool object has no attribute iloc")
    ∧ darvasCalculate
        [⟨10, 8, 9⟩, ⟨9, 7, 8⟩, ⟨9, 7, 8⟩, ⟨9, 7, 8⟩, ⟨9, 5, 6⟩,
         ⟨9, 6, 7⟩, ⟨9, 6, 7⟩, ⟨9, 6, 7⟩, ⟨11, 7, 10⟩]
      = Except.error (PyErr.attributeError "bool object has no attribute iloc") := by
  constructor <;> rfl

/-- C3: for every frame with at least `long_period = 20` rows,
`VPCI.calculate` raises AttributeError (the `MovingAverages.volume_ma` call of
vpci.py line 65) instead of returning the non-empty result with the
Alpha-defaulting behaviour the claim describes. -/
theorem c3_vpci_calculate_raises (df : List PriceVolRow)
    (h : 20 ≤ df.length) :
    vpciCalculate 5 20 df
      = Except.error (PyErr.attributeError
          "type object MovingAverages has no attribute volume_ma") := by
  unfold vpciCalculate
  rw [if_neg (by omega)]

/-- Witness for C3 on a concrete 20-row frame of constant close 1 and
volume 100. -/
theorem c3_vpci_calculate_raises_witness :
    vpciCalculate 5 20 (List.replicate 20 ⟨1, 100⟩)
      = Except.error (PyErr.attributeError
          "type object MovingAverages has no attribute volume_ma") :=
  c3_vpci_calculate_raises (List.replicate 20 ⟨1, 100⟩) (by simp)

/-- Counterexample to C7 as stated: with a warm token cache and upstream
answers 401, 401, success, the claim demands that the second 401 NOT be
recovered (the request should fail, with exactly one re-authentication);
the source instead re-authenticates after both 401s (two token requests, two
invalidations) and the request succeeds on the third attempt. -/
theorem c7_second_401_recovered_again :
    kisRequest
        [HTTPOutcome.httpStatusError 401, HTTPOutcome.httpStatusError 401,
         HTTPOutcome.success 7] ⟨true, 0, 0⟩
      = (Except.ok (some 7), ⟨true, 2, 2⟩) := rfl

/-- C7 amended: on every 401-class response — not only the first — the token
is invalidated and one re-authentication is performed, and the retry loop
continues within the request's overall budget of `retry_count = 3` attempts;
only a 401 on the final attempt is surfaced as a failure (after a last,
unused re-authentication).  Stated for a warm token cache. -/
theorem c7_amended_reauth_on_every_401 (st : AuthState) (v : Nat)
    (h : st.cached = true) :
    kisRequest
        [HTTPOutcome.httpStatusError 401, HTTPOutcome.httpStatusError 401,
         HTTPOutcome.success v] st
      = (Except.ok (some v),
         ⟨true, st.token_requests + 2, st.invalidations + 2⟩)
    ∧ kisRequest
        [HTTPOutcome.httpStatusError 401, HTTPOutcome.httpStatusError 401,
         HTTPOutcome.httpStatusError 401] st
      = (Except.error (ReqErr.httpStatus 401),
         ⟨true, st.token_requests + 3, st.invalidations + 3⟩) := by
  obtain ⟨c, tr, inv⟩ := st
  cases h
  constructor <;> rfl

/-- Witness for C7 amended at the empty-counter warm cache and value 7. -/
theorem c7_amended_reauth_on_every_401_witness :
    kisRequest
        [HTTPOutcome.httpStatusError 401, HTTPOutcome.httpStatusError 401,
         HTTPOutcome.success 7] ⟨true, 0, 0⟩
      = (Except.ok (some 7),
         ⟨true, (0 : Nat) + 2, (0 : Nat) + 2⟩)
    ∧ kisRequest
        [HTTPOutcome.httpStatusError 401, HTTPOutcome.httpStatusError 401,
         HTTPOutcome.httpStatusError 401] ⟨true, 0, 0⟩
      = (Except.error (ReqErr.httpStatus 401),
         ⟨true, (0 : Nat) + 3, (0 : Nat) + 3⟩) :=
  c7_amended_reauth_on_every_401 ⟨true, 0, 0⟩ 7 rfl

theorem mem_insertAscByDate (b x : ParsedBar) (l : List ParsedBar) :
    x ∈ insertAscByDate b l ↔ x = b ∨ x ∈ l := by
  induction l with
  | nil => simp [insertAscByDate]
  | cons a t ih =>
    simp only [insertAscByDate]
    split_ifs with h
    · simp [List.mem_cons]
    · simp only [List.mem_cons, ih]
      tauto

theorem perm_insertAscByDate (b : ParsedBar) (l : List ParsedBar) :
    List.Perm (insertAscByDate b l) (b :: l) := by
  induction l with
  | nil => rfl
  | cons a t ih =>
    simp only [insertAscByDate]
    split_ifs with h
    · rfl
    · exact (ih.cons a).trans (List.Perm.swap b a t)

theorem perm_sortAscByDate (l : List ParsedBar) :
    List.Perm (sortAscByDate l) l := by
  induction l with
  | nil => rfl
  | cons a t ih => exact (perm_insertAscByDate a (sortAscByDate t)).trans (ih.cons a)

theorem pairwise_insertAscByDate (b : ParsedBar) (l : List ParsedBar)
    (h : l.Pairwise fun x y => dateKey x.date ≤ dateKey y.date) :
    (insertAscByDate b l).Pairwise fun x y => dateKey x.date ≤ dateKey y.date := by
  induction l with
  | nil => simp [insertAscByDate]
  | cons a t ih =>
    obtain ⟨ha, ht⟩ := List.pairwise_cons.mp h
    simp only [insertAscByDate]
    split_ifs with hlt
    · refine List.pairwise_cons.mpr ⟨?_, h⟩
      intro x hx
      rcases List.mem_cons.mp hx with hx | hx
      · subst hx; omega
      · have := ha x hx; omega
    · refine List.pairwise_cons.mpr ⟨?_, ih ht⟩
      intro x hx
      rcases (mem_insertAscByDate b x t).mp hx with hx | hx
      · subst hx; omega
      · exact ha x hx

theorem pairwise_sortAscByDate (l : List ParsedBar) :
    (sortAscByDate l).Pairwise fun x y => dateKey x.date ≤ dateKey y.date := by
  induction l with
  | nil => simp [sortAscByDate]
  | cons a t ih => exact pairwise_insertAscByDate a (sortAscByDate t) ih

/-- C10: the returned list is always sorted ascending by date whatever the
provider's row order and contains exactly the successfully parsed rows; a row
is skipped precisely when its business-date field is not an 8-character
parseable YYYYMMDD string or a present field fails numeric conversion; and a
row with a valid date whose price and volume fields are all absent is still
emitted, with prices defaulted to 0.0 and volume to 0. -/
theorem c10_parse_daily_price (rows : List KISItem) (item missing : KISItem)
    (d : Nat × Nat × Nat)
    (hdate : parseYMD8 (missing.stck_bsop_date.getD "") = some d)
    (ho : missing.stck_oprc = none) (hh : missing.stck_hgpr = none)
    (hl : missing.stck_lwpr = none) (hc : missing.stck_clpr = none)
    (hv : missing.stck_vol = none) :
    ((parseDailyPrice rows).Pairwise fun x y => dateKey x.date ≤ dateKey y.date)
    ∧ (parseDailyPrice rows).Perm (rows.filterMap parseRow)
    ∧ (parseRow item = none ↔
        parseYMD8 (item.stck_bsop_date.getD "") = none
        ∨ floatField item.stck_oprc = none
        ∨ floatField item.stck_hgpr = none
        ∨ floatField item.stck_lwpr = none
        ∨ floatField item.stck_clpr = none
        ∨ intField item.stck_vol = none)
    ∧ parseRow missing = some ⟨d, 0, 0, 0, 0, 0⟩ := by
  refine ⟨pairwise_sortAscByDate _, perm_sortAscByDate _, ?_, ?_⟩
  · unfold parseRow
    rcases hd : parseYMD8 (item.stck_bsop_date.getD "") with - | dd
    · simp
    · rcases h1 : floatField item.stck_oprc with - | o <;>
      rcases h2 : floatField item.stck_hgpr with - | h <;>
      rcases h3 : floatField item.stck_lwpr with - | l <;>
      rcases h4 : floatField item.stck_clpr with - | c <;>
      rcases h5 : intField item.stck_vol with - | v <;>
      simp
  · unfold parseRow
    rw [hdate, ho, hh, hl, hc, hv]
    rfl

/-- Witness for C10: three concrete rows — dates 20230105 and 20230103 out of
order plus a malformed date "2023" — parse to two bars sorted ascending; the
skip-characterisation instance is the malformed row, and the defaults
instance is a row with only the date present. -/
theorem c10_parse_daily_price_witness :
    ((parseDailyPrice
        [⟨some "20230105", some "10", some "12", some "9", some "11", some "100"⟩,
         ⟨some "2023", some "1", some "1", some "1", some "1", some "1"⟩,
         ⟨some "20230103", some "7", some "8", some "6", some "7", some "50"⟩]).Pairwise
      fun x y => dateKey x.date ≤ dateKey y.date)
    ∧ (parseDailyPrice
        [⟨some "20230105", some "10", some "12", some "9", some "11", some "100"⟩,
         ⟨some "2023", some "1", some "1", some "1", some "1", some "1"⟩,
         ⟨some "20230103", some "7", some "8", some "6", some "7", some "50"⟩]).Perm
      (([⟨some "20230105", some "10", some "12", some "9", some "11", some "100"⟩,
         ⟨some "2023", some "1", some "1", some "1", some "1", some "1"⟩,
         ⟨some "20230103", some "7", some "8", some "6", some "7", some "50"⟩] :
        List KISItem).filterMap parseRow)
    ∧ (parseRow ⟨some "2023", some "1", some "1", some "1", some "1", some "1"⟩
          = none ↔
        parseYMD8 ((some "2023" : Option String).getD "") = none
        ∨ floatField (some "1") = none
        ∨ floatField (some "1") = none
        ∨ floatField (some "1") = none
        ∨ floatField (some "1") = none
        ∨ intField (some "1") = none)
    ∧ parseRow ⟨some "20230104", none, none, none, none, none⟩
        = some ⟨(2023, 1, 4), 0, 0, 0, 0, 0⟩ :=
  c10_parse_daily_price
    [⟨some "20230105", some "10", some "12", some "9", some "11", some "100"⟩,
     ⟨some "2023", some "1", some "1", some "1", some "1", some "1"⟩,
     ⟨some "20230103", some "7", some "8", some "6", some "7", some "50"⟩]
    ⟨some "2023", some "1", some "1", some "1", some "1", some "1"⟩
    ⟨some "20230104", none, none, none, none, none⟩
    (2023, 1, 4) (by rfl) rfl rfl rfl rfl rfl

end MarketTech
